import Mathlib

/-!
# Verification of penpal's parent-side connection establishment

A shallow embedding of `src/parent/connectToChild.ts`: the parent-side
connection-establishment protocol of the penpal RPC library.

The repository excerpt contains only `connectToChild.ts`.  Its collaborators
(`createDestructor`, `handleSynMessageFactory`, `handleAckMessageFactory`,
`startConnectionTimeout`, `monitorIframeRemoval`, `serializeMethods`,
`validateIframeHasSrcOrSrcDoc`, the enums) are part of the repository but not
of the excerpt; those definitions are modelled from the specification and are
marked `Modelled from the spec:` in their doc comments.  Everything else is a
direct translation of the source file.

The single-threaded, event-driven runtime is embedded as a state machine: a
connection attempt is an `AttemptState`, and each runtime callback invocation
(message arrival, timer fire, iframe-removal detection, a consumer call of
the handle's `destroy`) is an `Event` consumed by `step`.  A JavaScript
promise settles at most once; `settle` records the first settlement and
ignores later ones, exactly as `resolve`/`reject` behave on an already
settled promise.
-/

/-- Modelled from the spec: the failure taxonomy of section 7 —
`ConnectionTimedOut`, `ConnectionDestroyed`, `PeerLost`,
`PrincipalUnresolved`.  The source's `enums` module is not part of the
excerpt. -/
inductive ErrorCode where
  | connectionTimedOut
  | connectionDestroyed
  | peerLost
  | principalUnresolved
deriving DecidableEq, Repr

/-- A classified failure; only the classification is observable to this
subsystem (`error.code` in the source). -/
structure PenpalError where
  code : ErrorCode
deriving DecidableEq, Repr

/-- The handshake protocol tags carried in the `penpal` field of a wire
message (`MessageType` in the source's enums; the spec's two-tag design uses
`Syn` and `Ack`, plus unrelated tags such as call traffic). -/
inductive MessageType where
  | syn
  | ack
  | call
  | reply
deriving DecidableEq, Repr

/-- The `data` payload of an inbound `MessageEvent`.  `penpal` is the
protocol tag when present; `methodNames` is meaningful only on `Ack`
messages. -/
structure MessageData where
  penpal : Option MessageType
  methodNames : List String
deriving DecidableEq, Repr

/-- Modelled from the spec: a locally-invocable stub of one peer procedure,
forwarding through the Call Proxy Layer and the established principal.  Only
its key (the method name) and its target principal are observable to this
subsystem; the call wiring is the collaborator's. -/
structure RemoteStub where
  methodName : String
  targetOrigin : String
deriving DecidableEq, Repr

/-- The remote-call interface: a mapping from each peer-advertised procedure
name to an invocable stub (`CallSender` in the source). -/
abbrev CallSender := List (String × RemoteStub)

/-- An outbound wire message together with the principal it is addressed to
(the `targetOrigin` argument of `postMessage`). -/
structure OutMsg where
  penpal : MessageType
  methodNames : List String
  targetOrigin : String
deriving DecidableEq, Repr

/-- A settlement of the connection promise: fulfilled with a remote-call
interface, or rejected with a classified failure. -/
inductive Settlement where
  | fulfilled (callSender : CallSender)
  | rejected (error : PenpalError)
deriving DecidableEq, Repr

/-- The per-attempt configuration fixed by `connectToChild` before the
promise is created: the expected child principal, the principal used for
outbound sends (`'*'` when the child origin is the opaque `'null'`), and the
serialized local method names. -/
structure Config where
  childOrigin : String
  originForSending : String
  serializedMethods : List String
deriving DecidableEq, Repr

/-- The mutable state of one connection attempt.

* `destroyed` — the destructor's one-shot flag (spec 4.1).
* `established` — the Ack handler's guard against rebuilding (spec 4.5).
* `listenerActive` — whether `handleMessage` is still registered on the
  parent window (`addEventListener` … `removeEventListener`).
* `timerActive` — whether the connection-timeout timer is still pending
  (spec 4.3).
* `watchActive` — whether the iframe-removal watch is still live (spec 4.4).
* `settled` — the promise's settlement, `none` while pending.
* `sent` — the log of outbound handshake messages.
* `cleanupRuns` — how many times the destructor has drained its cleanup
  list (for stating the exactly-once discipline). -/
structure AttemptState where
  destroyed : Bool
  established : Bool
  listenerActive : Bool
  timerActive : Bool
  watchActive : Bool
  settled : Option Settlement
  sent : List OutMsg
  cleanupRuns : Nat
deriving DecidableEq, Repr

/-- First settlement wins: `resolve`/`reject` on an already settled promise
is a no-op. -/
def settle (s : AttemptState) (v : Settlement) : AttemptState :=
  match s.settled with
  | some _ => s
  | none => { s with settled := some v }

/-- Modelled from the spec: the Lifecycle Manager's `destroy(cause?)`
(spec 4.1) — idempotent, the first call drains the registered cleanups in
registration order, later calls are no-ops.  The cleanups registered for a
parent connection attempt are: stop the iframe-removal watch
(`monitorIframeRemoval`, spec 4.4), remove the message listener
(source lines 128–131), and — exactly as the source's `onDestroy` callback
reads — reject the pending promise only `if (error)` is present
(source lines 133–135). -/
def runDestroy (s : AttemptState) (cause : Option PenpalError) : AttemptState :=
  if s.destroyed then s
  else
    let s1 : AttemptState :=
      { s with
          destroyed := true
          cleanupRuns := s.cleanupRuns + 1
          watchActive := false
          listenerActive := false }
    match cause with
    | some e => settle s1 (Settlement.rejected e)
    | none => s1

/-- Modelled from the spec: `serializeMethods` (spec 4.2) — the wire-safe
descriptor of a local procedure mapping is the set of its keys; the
implementations (here opaque tokens) never cross the wire. -/
def serializeMethods (methods : List (String × Nat)) : List String :=
  methods.map Prod.fst

/-- Modelled from the spec: the Ack handler "builds the remote-call
interface from the message's `methodNames` (one invocable stub per name,
each stub forwarding through the Call Proxy Layer and the established
principal)" (spec 4.5). -/
def connectCallSender (methodNames : List String) (originForSending : String) :
    CallSender :=
  methodNames.map (fun n => (n, { methodName := n, targetOrigin := originForSending }))

/-- The host's handshake reply: an `Ack` carrying the host's own method
descriptor set, addressed to the send principal. -/
def ackReply (cfg : Config) : OutMsg :=
  { penpal := MessageType.ack
    methodNames := cfg.serializedMethods
    targetOrigin := cfg.originForSending }

/-- Modelled from the spec: the Syn handler (spec 4.5) — on an inbound `Syn`
whose sender principal equals the expected principal, reply with an `Ack`
carrying the host's own method descriptor set, addressed to the send
principal; messages from any other principal are silently discarded.  It
does not change connection state. -/
def handleSynMessage (cfg : Config) (s : AttemptState) (origin : String) :
    AttemptState :=
  if origin = cfg.childOrigin then { s with sent := s.sent ++ [ackReply cfg] }
  else s

/-- Modelled from the spec: the Ack handler (spec 4.5) — on an inbound `Ack`
from the expected principal, build the remote-call interface from the
message's `methodNames`, transition to `Established`, and hand the interface
back to the caller (`connectToChild` then resolves the promise with it).  A
mismatched principal is silently discarded; a second `Ack` after
`Established` is ignored.  Returns the updated state and the interface when
one was built (`undefined` in the source is `none` here). -/
def handleAckMessage (cfg : Config) (s : AttemptState) (origin : String)
    (methodNames : List String) : AttemptState × Option CallSender :=
  if origin = cfg.childOrigin then
    if s.established then (s, none)
    else ({ s with established := true },
          some (connectCallSender methodNames cfg.originForSending))
  else (s, none)

/-- The `handleMessage` listener of `connectToChild` (source lines 99–120):
absent `data` returns immediately; a `Syn` tag goes to the Syn handler; an
`Ack` tag goes to the Ack handler and, when the latter yields a call sender,
the connection timeout is stopped and the promise is resolved with it; any
other tag falls through untouched. -/
def handleMessage (cfg : Config) (s : AttemptState)
    (origin : String) (data : Option MessageData) : AttemptState :=
  match data with
  | none => s
  | some d =>
    if d.penpal = some MessageType.syn then
      handleSynMessage cfg s origin
    else if d.penpal = some MessageType.ack then
      match handleAckMessage cfg s origin d.methodNames with
      | (s1, some callSender) =>
          settle { s1 with timerActive := false } (Settlement.fulfilled callSender)
      | (s1, none) => s1
    else s

/-- One runtime callback invocation for a connection attempt:
a `MessageEvent` arriving on the parent window, the connection-timeout timer
firing, the iframe-removal watch firing, or the consumer calling the
returned handle's `destroy` (with whatever argument it tried to pass). -/
inductive Event where
  | message (origin : String) (data : Option MessageData)
  | timeout
  | iframeRemoved
  | destroyCall (arg : Option PenpalError)
deriving DecidableEq, Repr

/-- Process one event against the attempt state.

* A message reaches `handleMessage` only while the listener is registered.
* Modelled from the spec: the Connection Timeout Guard (spec 4.3) fires at
  most once and only while not stopped, triggering destruction with a
  timeout-classified failure; the iframe-removal watch (spec 4.4) fires at
  most once while live, triggering destruction with a liveness failure.
* The handle's `destroy()` (source lines 142–145) never forwards the
  consumer's argument: "Don't allow consumer to pass an error into
  destroy." — internal destruction runs with no cause. -/
def step (cfg : Config) (s : AttemptState) (e : Event) : AttemptState :=
  match e with
  | Event.message origin data =>
      if s.listenerActive then handleMessage cfg s origin data else s
  | Event.timeout =>
      if s.timerActive then
        runDestroy { s with timerActive := false }
          (some { code := ErrorCode.connectionTimedOut })
      else s
  | Event.iframeRemoved =>
      if s.watchActive then
        runDestroy s (some { code := ErrorCode.peerLost })
      else s
  | Event.destroyCall _ => runDestroy s none

/-- The state of a fresh connection attempt, right after `connectToChild`
returned its handle: listener registered, iframe-removal watch live, promise
pending, nothing sent.  Modelled from the spec for the timer: the guard is
armed only when `timeoutMillis` is present and positive (spec 4.3). -/
def initState (timeoutMillis : Option Nat) : AttemptState :=
  { destroyed := false
    established := false
    listenerActive := true
    timerActive := match timeoutMillis with | some t => decide (0 < t) | none => false
    watchActive := true
    settled := none
    sent := []
    cleanupRuns := 0 }

/-- Run a list of events from a given state. -/
def runFrom (cfg : Config) (s : AttemptState) (events : List Event) : AttemptState :=
  events.foldl (step cfg) s

/-- The peer reference: an iframe element.  In the DOM, an unset `src` or
`srcdoc` reads as the empty string, which is falsy. -/
structure IframeRef where
  src : String
  srcdoc : String
deriving DecidableEq, Repr

/-- The options record accepted by `connectToChild` (source lines 20–50),
restricted to the fields this subsystem observes.  A procedure mapping is an
association list from name to an opaque implementation token. -/
structure Options where
  iframe : IframeRef
  methods : List (String × Nat)
  childOrigin : Option String
  timeoutMillis : Option Nat
deriving DecidableEq, Repr

/-- Modelled from the spec: `validateIframeHasSrcOrSrcDoc` — a peer
reference that carries no determinable location (neither `src` nor `srcdoc`)
is a hard failure; "establishment never proceeds with an unknown principal
when the caller didn't explicitly opt out by supplying one" (spec 4.6).  The
source calls this synchronously (line 72), before the promise exists, so the
failure is a synchronous throw — embedded as `Except.error`. -/
def validateIframeHasSrcOrSrcDoc (iframe : IframeRef) : Except PenpalError Unit :=
  if iframe.src = "" ∧ iframe.srcdoc = "" then
    Except.error { code := ErrorCode.principalUnresolved }
  else Except.ok ()

/-- Modelled from the spec: the Origin Resolver collaborator — the expected
principal is "derived from the peer's location, or the wildcard principal
when the peer's origin is unknowable, e.g. non-network content" (spec 3).
Opaque-origin schemes yield the string `'null'`; otherwise we take the
location itself as the derived principal. -/
def getOriginFromSrc (src : String) : String :=
  if src.startsWith "data:" ∨ src.startsWith "file:" then "null" else src

/-- The synchronous prefix of `connectToChild` (source lines 55–98): resolve
the child origin (validating the iframe first when none was supplied),
derive the send origin (`'*'` when the child origin is the opaque `'null'`,
lines 76–79), serialize the local methods once, and create the attempt in
its initial state.  A validation failure propagates as a synchronous throw
(`Except.error`): no config, no attempt state, no promise is ever created.
The returned pair stands for the live attempt behind the returned
`Connection` handle; subsequent runtime callbacks are `step` events. -/
def connectToChild (o : Options) : Except PenpalError (Config × AttemptState) :=
  match
    (match o.childOrigin with
     | none => none
     | some co => if co = "" then none else some co) with
  | some co =>
      Except.ok
        ({ childOrigin := co
           originForSending := if co = "null" then "*" else co
           serializedMethods := serializeMethods o.methods },
         initState o.timeoutMillis)
  | none =>
      match validateIframeHasSrcOrSrcDoc o.iframe with
      | Except.error e => Except.error e
      | Except.ok _ =>
          let co := getOriginFromSrc o.iframe.src
          Except.ok
            ({ childOrigin := co
               originForSending := if co = "null" then "*" else co
               serializedMethods := serializeMethods o.methods },
             initState o.timeoutMillis)

/-- An event is an inbound `Ack` message from the expected principal. -/
def expectedAck (cfg : Config) (e : Event) : Bool :=
  match e with
  | Event.message origin (some d) =>
      origin = cfg.childOrigin && d.penpal = some MessageType.ack
  | _ => false

/-- An event is benign for a pending attempt: an inbound message that is not
an `Ack` from the expected principal (so: absent data, unrecognized tags,
foreign-principal traffic, or expected-principal `Syn`s).  Timer fire,
iframe removal and explicit destruction are not benign. -/
def benign (cfg : Config) (e : Event) : Bool :=
  match e with
  | Event.message _ _ => !expectedAck cfg e
  | _ => false

/-- The attempt is still fully pending: not destroyed, not established,
promise unsettled, listener registered. -/
def pending (s : AttemptState) : Prop :=
  s.destroyed = false ∧ s.established = false ∧ s.settled = none ∧
    s.listenerActive = true

instance (s : AttemptState) : Decidable (pending s) := by
  unfold pending; infer_instance

/-- The attempt is dead: destructor fired and listener removed. -/
def dead (s : AttemptState) : Prop :=
  s.destroyed = true ∧ s.listenerActive = false

instance (s : AttemptState) : Decidable (dead s) := by
  unfold dead; infer_instance

/-- The destructor's one-shot discipline, as a state invariant: the cleanup
list has been drained exactly once if and only if the destroyed flag is set. -/
def wfRuns (s : AttemptState) : Prop :=
  s.cleanupRuns = (if s.destroyed then 1 else 0)

/-- A concrete configuration used to instantiate universally quantified
theorems on closed inputs. -/
def cfgW : Config :=
  { childOrigin := "https://child.example.com"
    originForSending := "https://child.example.com"
    serializedMethods := ["add", "divide"] }

/-- A concrete expected-principal `Ack` event carrying one method name. -/
def ackEventW : Event :=
  Event.message "https://child.example.com"
    (some { penpal := some MessageType.ack, methodNames := ["multiply"] })

/-- A concrete options record whose iframe has neither `src` nor `srcdoc`
and whose caller supplied no `childOrigin`. -/
def optionsNoSrcW : Options :=
  { iframe := { src := "", srcdoc := "" }
    methods := [("add", 0)]
    childOrigin := none
    timeoutMillis := some 500 }

/-- A concrete options record with an empty-string `childOrigin` (falsy in
the source's `if (!childOrigin)` test) and a location-free iframe. -/
def optionsEmptyOriginW : Options :=
  { iframe := { src := "", srcdoc := "" }
    methods := []
    childOrigin := some ""
    timeoutMillis := none }

/-- A concrete benign prefix: an expected-principal `Syn`, a
foreign-principal `Ack`, and a data-free message. -/
def preW : List Event :=
  [Event.message "https://child.example.com"
      (some { penpal := some MessageType.syn, methodNames := [] }),
   Event.message "https://evil.example.com"
      (some { penpal := some MessageType.ack, methodNames := ["steal"] }),
   Event.message "https://child.example.com" none]

/-!
## Helper lemmas

Frame lemmas: which fields each operation can touch, and the invariants the
event loop preserves.
-/

theorem settle_frame (s : AttemptState) (v : Settlement) :
    (settle s v).destroyed = s.destroyed ∧
    (settle s v).established = s.established ∧
    (settle s v).listenerActive = s.listenerActive ∧
    (settle s v).timerActive = s.timerActive ∧
    (settle s v).watchActive = s.watchActive ∧
    (settle s v).sent = s.sent ∧
    (settle s v).cleanupRuns = s.cleanupRuns := by
  cases h : s.settled <;> simp [settle, h]

theorem settle_settled_some (s : AttemptState) (v : Settlement) {w : Settlement}
    (h : s.settled = some w) : (settle s v).settled = some w := by
  simp [settle, h]

/-- Case characterization of `handleMessage` on present data, eliminating
the intermediate pair match. -/
theorem handleMessage_eq (cfg : Config) (s : AttemptState) (origin : String)
    (d : MessageData) :
    handleMessage cfg s origin (some d) =
      if d.penpal = some MessageType.syn then
        (if origin = cfg.childOrigin then { s with sent := s.sent ++ [ackReply cfg] }
         else s)
      else if d.penpal = some MessageType.ack then
        (if origin = cfg.childOrigin ∧ s.established = false then
           settle { s with established := true, timerActive := false }
             (Settlement.fulfilled (connectCallSender d.methodNames cfg.originForSending))
         else s)
      else s := by
  by_cases hsyn : d.penpal = some MessageType.syn
  · simp [handleMessage, handleSynMessage, hsyn]
  · by_cases hack : d.penpal = some MessageType.ack
    · by_cases ho : origin = cfg.childOrigin
      · by_cases he : s.established = true
        · simp [handleMessage, handleAckMessage, hsyn, hack, ho, he]
        · simp only [Bool.not_eq_true] at he
          simp [handleMessage, handleAckMessage, hsyn, hack, ho, he]
      · simp [handleMessage, handleAckMessage, hsyn, hack, ho]
    · simp [handleMessage, hsyn, hack]

theorem handleMessage_frame (cfg : Config) (s : AttemptState) (origin : String)
    (data : Option MessageData) :
    (handleMessage cfg s origin data).destroyed = s.destroyed ∧
    (handleMessage cfg s origin data).cleanupRuns = s.cleanupRuns ∧
    (handleMessage cfg s origin data).listenerActive = s.listenerActive ∧
    (handleMessage cfg s origin data).watchActive = s.watchActive := by
  rcases data with _ | d
  · exact ⟨rfl, rfl, rfl, rfl⟩
  · rw [handleMessage_eq]
    repeat' split
    all_goals simp [settle_frame]

theorem handleMessage_settled_some (cfg : Config) (s : AttemptState)
    (origin : String) (data : Option MessageData) {w : Settlement}
    (h : s.settled = some w) :
    (handleMessage cfg s origin data).settled = some w := by
  rcases data with _ | d
  · exact h
  · rw [handleMessage_eq]
    repeat' split
    all_goals simp [settle, h]

theorem runDestroy_settled_some {s : AttemptState} (cause : Option PenpalError)
    {w : Settlement} (h : s.settled = some w) :
    (runDestroy s cause).settled = some w := by
  unfold runDestroy
  by_cases hd : s.destroyed <;> cases cause <;> simp [hd, h, settle]

theorem step_settled_some (cfg : Config) (s : AttemptState) (e : Event)
    {w : Settlement} (h : s.settled = some w) :
    (step cfg s e).settled = some w := by
  cases e with
  | message origin data =>
      simp only [step]
      split
      · exact handleMessage_settled_some cfg s origin data h
      · exact h
  | timeout =>
      simp only [step]
      split
      · exact runDestroy_settled_some _ h
      · exact h
  | iframeRemoved =>
      simp only [step]
      split
      · exact runDestroy_settled_some _ h
      · exact h
  | destroyCall arg =>
      exact runDestroy_settled_some _ h

theorem runDestroy_wfRuns {s : AttemptState} (h : wfRuns s)
    (cause : Option PenpalError) : wfRuns (runDestroy s cause) := by
  unfold wfRuns at h ⊢
  unfold runDestroy
  by_cases hd : s.destroyed <;> cases cause <;> cases hsc : s.settled <;>
    simp_all [settle, hsc]

theorem wfRuns_step (cfg : Config) {s : AttemptState} (h : wfRuns s) (e : Event) :
    wfRuns (step cfg s e) := by
  cases e with
  | message origin data =>
      simp only [step]
      split
      · obtain ⟨h1, h2, _, _⟩ := handleMessage_frame cfg s origin data
        unfold wfRuns at h ⊢
        rw [h1, h2]; exact h
      · exact h
  | timeout =>
      simp only [step]
      split
      · exact runDestroy_wfRuns (by simpa [wfRuns] using h) _
      · exact h
  | iframeRemoved =>
      simp only [step]
      split
      · exact runDestroy_wfRuns h _
      · exact h
  | destroyCall arg =>
      exact runDestroy_wfRuns h _

theorem wfRuns_runFrom (cfg : Config) {s : AttemptState} (h : wfRuns s)
    (events : List Event) : wfRuns (runFrom cfg s events) := by
  induction events generalizing s with
  | nil => exact h
  | cons e rest ih => exact ih (wfRuns_step cfg h e)

theorem pending_step_benign (cfg : Config) {s : AttemptState} (hp : pending s)
    {e : Event} (hb : benign cfg e = true) :
    pending (step cfg s e) ∧ (step cfg s e).timerActive = s.timerActive := by
  obtain ⟨hd, he, hs, hl⟩ := hp
  cases e with
  | message origin data =>
      simp only [step, hl, if_true]
      rcases data with _ | d
      · exact ⟨⟨hd, he, hs, hl⟩, rfl⟩
      · rw [handleMessage_eq]
        by_cases hsyn : d.penpal = some MessageType.syn
        · simp only [hsyn, if_true]
          by_cases ho : origin = cfg.childOrigin <;>
            simp [ho, pending, hd, he, hs, hl]
        · by_cases hack : d.penpal = some MessageType.ack
          · have ho : ¬ origin = cfg.childOrigin := by
              intro hoe
              simp [benign, expectedAck, hoe, hack] at hb
            simp [hsyn, hack, ho, pending, hd, he, hs, hl]
          · simp [hsyn, hack, pending, hd, he, hs, hl]
  | timeout => simp [benign] at hb
  | iframeRemoved => simp [benign] at hb
  | destroyCall arg => simp [benign] at hb

theorem pending_runFrom_benign (cfg : Config) {s : AttemptState} (hp : pending s)
    {pre : List Event} (h : ∀ e ∈ pre, benign cfg e = true) :
    pending (runFrom cfg s pre) ∧ (runFrom cfg s pre).timerActive = s.timerActive := by
  induction pre generalizing s with
  | nil => exact ⟨hp, rfl⟩
  | cons e rest ih =>
      have hb : benign cfg e = true := h e (List.mem_cons_self e rest)
      obtain ⟨hp1, ht1⟩ := pending_step_benign cfg hp hb
      obtain ⟨hp2, ht2⟩ := ih hp1 (fun x hx => h x (List.mem_cons_of_mem e hx))
      exact ⟨hp2, ht2.trans ht1⟩

/-- An `Ack` from the expected principal, processed in a pending attempt:
the attempt establishes, the timeout stops, and the promise fulfills with
the interface built from the message's `methodNames`. -/
theorem step_ack_pending {cfg : Config} {s : AttemptState} {ns : List String}
    (hl : s.listenerActive = true) (he : s.established = false)
    (hs : s.settled = none) :
    step cfg s (Event.message cfg.childOrigin
        (some { penpal := some MessageType.ack, methodNames := ns })) =
      { s with
          established := true
          timerActive := false
          settled := some (Settlement.fulfilled
            (connectCallSender ns cfg.originForSending)) } := by
  simp only [step, hl, if_true]
  rw [handleMessage_eq]
  simp [he, settle, hs, hl]

theorem dead_step (cfg : Config) {s : AttemptState} (h : dead s) (e : Event) :
    dead (step cfg s e) ∧ (step cfg s e).sent = s.sent ∧
      (step cfg s e).settled = s.settled := by
  obtain ⟨hd, hl⟩ := h
  cases e with
  | message origin data => simp [step, hl, dead, hd]
  | timeout =>
      simp only [step]
      split
      · simp [runDestroy, hd, dead, hl]
      · exact ⟨⟨hd, hl⟩, rfl, rfl⟩
  | iframeRemoved =>
      simp only [step]
      split
      · simp [runDestroy, hd, dead, hl]
      · exact ⟨⟨hd, hl⟩, rfl, rfl⟩
  | destroyCall arg => simp [step, runDestroy, hd, dead, hl]

theorem dead_runFrom (cfg : Config) {s : AttemptState} (h : dead s)
    (events : List Event) :
    (runFrom cfg s events).sent = s.sent ∧
      (runFrom cfg s events).settled = s.settled ∧ dead (runFrom cfg s events) := by
  induction events generalizing s with
  | nil => exact ⟨rfl, rfl, h⟩
  | cons e rest ih =>
      obtain ⟨h1, h2, h3⟩ := dead_step cfg h e
      obtain ⟨g1, g2, g3⟩ := ih h1
      exact ⟨g1.trans h2, g2.trans h3, g3⟩

theorem runFrom_append_one (cfg : Config) (s : AttemptState) (pre : List Event)
    (e : Event) : runFrom cfg s (pre ++ [e]) = step cfg (runFrom cfg s pre) e := by
  unfold runFrom
  rw [List.foldl_append]
  rfl

/-!
## Claim theorems
-/

/-- C3: for every connection attempt, the eventual result settles at most
once — once `settled` holds a value, no further event can change it — and
the handle's `destroy()` may be called any number of times (every trace,
including any number of `destroyCall` events, is a total computation, so
nothing throws) without running the registered cleanup list more than
once. -/
theorem settleOnce_and_cleanupOnce (cfg : Config) (t : Option Nat)
    (events : List Event) :
    (runFrom cfg (initState t) events).cleanupRuns ≤ 1 ∧
    ∀ (e : Event) (v : Settlement),
      (runFrom cfg (initState t) events).settled = some v →
      (step cfg (runFrom cfg (initState t) events) e).settled = some v := by
  constructor
  · have h := wfRuns_runFrom cfg (s := initState t) (by simp [wfRuns, initState]) events
    unfold wfRuns at h
    rw [h]
    split <;> simp
  · intro e v hv
    exact step_settled_some cfg _ e hv

/-- Closed witness for `settleOnce_and_cleanupOnce`: a trace that fulfills
and then destroys; a further `Ack` cannot change the settlement. -/
theorem settleOnce_and_cleanupOnce_witness :
    (runFrom cfgW (initState (some 500)) [ackEventW, Event.destroyCall none]).cleanupRuns ≤ 1 ∧
    (step cfgW (runFrom cfgW (initState (some 500)) [ackEventW, Event.destroyCall none])
        ackEventW).settled
      = some (Settlement.fulfilled (connectCallSender ["multiply"] cfgW.originForSending)) :=
  ⟨(settleOnce_and_cleanupOnce cfgW (some 500) [ackEventW, Event.destroyCall none]).1,
   (settleOnce_and_cleanupOnce cfgW (some 500) [ackEventW, Event.destroyCall none]).2
     ackEventW _ (by decide)⟩

/-- C6: a `Syn` or `Ack` message whose sender principal differs from the
expected principal leaves the attempt state exactly unchanged: no state
change, no outbound message appended to `sent`, no settlement. -/
theorem foreignPrincipal_noEffect (cfg : Config) (s : AttemptState)
    (origin : String) (d : MessageData)
    (ho : origin ≠ cfg.childOrigin)
    (htag : d.penpal = some MessageType.syn ∨ d.penpal = some MessageType.ack) :
    step cfg s (Event.message origin (some d)) = s := by
  by_cases hl : s.listenerActive = true
  · simp only [step, hl, if_true]
    rw [handleMessage_eq]
    rcases htag with h | h <;> simp [h, ho]
  · simp [step, hl]

/-- Closed witness for `foreignPrincipal_noEffect`: a forged-origin `Ack`. -/
theorem foreignPrincipal_noEffect_witness :
    step cfgW (initState (some 500))
        (Event.message "https://evil.example.com"
          (some { penpal := some MessageType.ack, methodNames := ["steal"] }))
      = initState (some 500) :=
  foreignPrincipal_noEffect cfgW (initState (some 500)) _ _ (by decide) (Or.inr rfl)

/-- C7: an inbound message whose data is absent or carries no recognized
protocol tag (neither `Syn` nor `Ack`) leaves the attempt state exactly
unchanged: no handler runs, nothing is sent, and the result is neither
resolved nor rejected. -/
theorem unrecognizedTag_noEffect (cfg : Config) (s : AttemptState)
    (origin : String) (data : Option MessageData)
    (h : ∀ d, data = some d →
      d.penpal ≠ some MessageType.syn ∧ d.penpal ≠ some MessageType.ack) :
    step cfg s (Event.message origin data) = s := by
  by_cases hl : s.listenerActive = true
  · simp only [step, hl, if_true]
    rcases data with _ | d
    · rfl
    · obtain ⟨h1, h2⟩ := h d rfl
      rw [handleMessage_eq]
      simp [h1, h2]
  · simp [step, hl]

/-- Closed witness for `unrecognizedTag_noEffect`: a call-tagged message
from the expected principal. -/
theorem unrecognizedTag_noEffect_witness :
    step cfgW (initState (some 500))
        (Event.message "https://child.example.com"
          (some { penpal := some MessageType.call, methodNames := [] }))
      = initState (some 500) :=
  unrecognizedTag_noEffect cfgW (initState (some 500)) _ _
    (fun d hd => by cases hd; exact ⟨by decide, by decide⟩)

/-- C9: processing an inbound `Syn` — from any origin, the expected
principal included — never changes the `established` flag and never settles
the eventual result; establishment completes only on the peer's `Ack`. -/
theorem synNeverEstablishes (cfg : Config) (s : AttemptState)
    (origin : String) (ns : List String) :
    (step cfg s (Event.message origin
        (some { penpal := some MessageType.syn, methodNames := ns }))).established
      = s.established ∧
    (step cfg s (Event.message origin
        (some { penpal := some MessageType.syn, methodNames := ns }))).settled
      = s.settled := by
  by_cases hl : s.listenerActive = true
  · simp only [step, hl, if_true]
    rw [handleMessage_eq]
    by_cases ho : origin = cfg.childOrigin <;> simp [ho]
  · simp [step, hl]

/-- C10: whatever argument a consumer passes to the returned handle's
`destroy()`, the behavior is identical to calling it with no argument — the
internal destruction runs with no failure cause, so no consumer-injected
cause can reach the cleanup callbacks or the result's rejection path (the
settlement is unchanged by the call). -/
theorem destroyArg_ignored (cfg : Config) (s : AttemptState)
    (arg : Option PenpalError) :
    step cfg s (Event.destroyCall arg) = step cfg s (Event.destroyCall none) ∧
    (step cfg s (Event.destroyCall arg)).settled = s.settled := by
  refine ⟨rfl, ?_⟩
  simp only [step]
  unfold runDestroy
  by_cases hd : s.destroyed <;> simp [hd]

/-- C4: if an `Ack` from the expected principal arrives while the attempt is
pending — after any prefix of benign traffic and before the timeout fires
(a trace with no `timeout` event) — the eventual result fulfills with a
remote-call interface whose key set is exactly the `methodNames` carried in
that `Ack`. -/
theorem ackBeforeTimeout_fulfills (cfg : Config) (t : Option Nat)
    (pre : List Event) (hpre : ∀ e ∈ pre, benign cfg e = true)
    (ns : List String) :
    (runFrom cfg (initState t)
        (pre ++ [Event.message cfg.childOrigin
          (some { penpal := some MessageType.ack, methodNames := ns })])).settled
      = some (Settlement.fulfilled (connectCallSender ns cfg.originForSending)) ∧
    (connectCallSender ns cfg.originForSending).map Prod.fst = ns := by
  constructor
  · have hp0 : pending (initState t) := by simp [pending, initState]
    obtain ⟨hp, _⟩ := pending_runFrom_benign cfg hp0 hpre
    obtain ⟨hd, he, hs, hl⟩ := hp
    rw [runFrom_append_one, step_ack_pending hl he hs]
  · induction ns with
    | nil => rfl
    | cons a l ih => simpa [connectCallSender] using ih

/-- Closed witness for `ackBeforeTimeout_fulfills`: benign traffic, then the
expected `Ack` advertising `multiply`. -/
theorem ackBeforeTimeout_fulfills_witness :
    (runFrom cfgW (initState (some 2000))
        (preW ++ [Event.message cfgW.childOrigin
          (some { penpal := some MessageType.ack, methodNames := ["multiply"] })])).settled
      = some (Settlement.fulfilled (connectCallSender ["multiply"] cfgW.originForSending)) ∧
    (connectCallSender ["multiply"] cfgW.originForSending).map Prod.fst = ["multiply"] :=
  ackBeforeTimeout_fulfills cfgW (some 2000) preW (by decide) ["multiply"]

/-- C5: with a positive `timeoutMillis` and no expected-principal `Ack`
before the timer fires (any benign prefix), the eventual result rejects with
`ConnectionTimedOut` and the inbound message listener is unsubscribed by
that point, so no further handler processing affects the destroyed
attempt. -/
theorem noAck_timeout_rejects (cfg : Config) (t : Nat) (ht : 0 < t)
    (pre : List Event) (hpre : ∀ e ∈ pre, benign cfg e = true) :
    (runFrom cfg (initState (some t)) (pre ++ [Event.timeout])).settled
      = some (Settlement.rejected { code := ErrorCode.connectionTimedOut }) ∧
    (runFrom cfg (initState (some t)) (pre ++ [Event.timeout])).listenerActive
      = false := by
  have hp0 : pending (initState (some t)) := by simp [pending, initState]
  obtain ⟨hp, htim⟩ := pending_runFrom_benign cfg hp0 hpre
  obtain ⟨hd, he, hs, hl⟩ := hp
  have htimer : (runFrom cfg (initState (some t)) pre).timerActive = true := by
    rw [htim]; simp [initState, ht]
  rw [runFrom_append_one]
  simp only [step, htimer, if_true]
  unfold runDestroy
  simp [hd, settle, hs]

/-- Closed witness for `noAck_timeout_rejects`: `timeoutMillis = 500`, only
benign traffic, then the timer fires. -/
theorem noAck_timeout_rejects_witness :
    (runFrom cfgW (initState (some 500)) (preW ++ [Event.timeout])).settled
      = some (Settlement.rejected { code := ErrorCode.connectionTimedOut }) ∧
    (runFrom cfgW (initState (some 500)) (preW ++ [Event.timeout])).listenerActive
      = false :=
  noAck_timeout_rejects cfgW 500 (by decide) preW (by decide)

/-- C8: two `Ack` messages from the expected principal settle the result
exactly once, with the interface built from the first `Ack`'s
`methodNames`; processing the second `Ack` is the identity on the attempt
state (no rebuild, no re-resolution). -/
theorem secondAck_ignored (cfg : Config) (s : AttemptState)
    (m1 m2 : List String) (hl : s.listenerActive = true)
    (he : s.established = false) (hs : s.settled = none) :
    (step cfg s (Event.message cfg.childOrigin
        (some { penpal := some MessageType.ack, methodNames := m1 }))).settled
      = some (Settlement.fulfilled (connectCallSender m1 cfg.originForSending)) ∧
    step cfg
        (step cfg s (Event.message cfg.childOrigin
          (some { penpal := some MessageType.ack, methodNames := m1 })))
        (Event.message cfg.childOrigin
          (some { penpal := some MessageType.ack, methodNames := m2 }))
      = step cfg s (Event.message cfg.childOrigin
          (some { penpal := some MessageType.ack, methodNames := m1 })) := by
  rw [step_ack_pending hl he hs]
  refine ⟨rfl, ?_⟩
  have h2 : ({ s with
      established := true
      timerActive := false
      settled := some (Settlement.fulfilled
        (connectCallSender m1 cfg.originForSending)) } : AttemptState).listenerActive
      = true := hl
  simp only [step, h2, if_true]
  rw [handleMessage_eq]
  simp

/-- Closed witness for `secondAck_ignored`: first `Ack` advertises
`multiply`, second advertises `divide`. -/
theorem secondAck_ignored_witness :
    (step cfgW (initState (some 500)) (Event.message cfgW.childOrigin
        (some { penpal := some MessageType.ack, methodNames := ["multiply"] }))).settled
      = some (Settlement.fulfilled (connectCallSender ["multiply"] cfgW.originForSending)) ∧
    step cfgW
        (step cfgW (initState (some 500)) (Event.message cfgW.childOrigin
          (some { penpal := some MessageType.ack, methodNames := ["multiply"] })))
        (Event.message cfgW.childOrigin
          (some { penpal := some MessageType.ack, methodNames := ["divide"] }))
      = step cfgW (initState (some 500)) (Event.message cfgW.childOrigin
          (some { penpal := some MessageType.ack, methodNames := ["multiply"] })) :=
  secondAck_ignored cfgW (initState (some 500)) ["multiply"] ["divide"] rfl rfl rfl

/-- C1 (counterexample): calling the handle's `destroy()` on a fresh,
unsettled attempt leaves the eventual result unsettled — it does NOT reject
with `ConnectionDestroyed` (or anything else), because the source's
`onDestroy` callback rejects only `if (error)` and the handle's `destroy()`
passes no error.  The result stays pending even after the (now-dead) timer
event and a subsequent expected-principal `Ack`. -/
theorem destroyBeforeSettlement_noRejection_cex :
    (runFrom cfgW (initState (some 500)) [Event.destroyCall none]).settled = none ∧
    (runFrom cfgW (initState (some 500))
        [Event.destroyCall none, Event.timeout, ackEventW]).settled = none := by
  exact ⟨rfl, rfl⟩

/-- C1 (amended): if the handle's `destroy()` is called before the eventual
result has settled, the result remains pending forever (it never rejects,
with `ConnectionDestroyed` or otherwise), the inbound listener is removed at
once, and no handshake message is sent afterward, whatever events follow. -/
theorem destroyBeforeSettlement_silent (cfg : Config) (s : AttemptState)
    (arg : Option PenpalError) (hd : s.destroyed = false)
    (hs : s.settled = none) :
    (step cfg s (Event.destroyCall arg)).settled = none ∧
    (step cfg s (Event.destroyCall arg)).listenerActive = false ∧
    ∀ tail : List Event,
      (runFrom cfg (step cfg s (Event.destroyCall arg)) tail).settled = none ∧
      (runFrom cfg (step cfg s (Event.destroyCall arg)) tail).sent
        = (step cfg s (Event.destroyCall arg)).sent := by
  have hstep : step cfg s (Event.destroyCall arg) =
      { s with
          destroyed := true
          cleanupRuns := s.cleanupRuns + 1
          watchActive := false
          listenerActive := false } := by
    simp [step, runDestroy, hd]
  rw [hstep]
  refine ⟨hs, rfl, ?_⟩
  intro tail
  have hdead : dead ({ s with
      destroyed := true
      cleanupRuns := s.cleanupRuns + 1
      watchActive := false
      listenerActive := false } : AttemptState) := ⟨rfl, rfl⟩
  obtain ⟨g1, g2, _⟩ := dead_runFrom cfg hdead tail
  exact ⟨g2.trans hs, g1⟩

/-- Closed witness for `destroyBeforeSettlement_silent`: destroying a fresh
attempt (even with a consumer-supplied error argument) leaves the result
pending, removes the listener, and a later expected `Ack` neither settles
the result nor sends anything. -/
theorem destroyBeforeSettlement_silent_witness :
    (step cfgW (initState (some 500))
        (Event.destroyCall (some { code := ErrorCode.connectionDestroyed }))).settled
      = none ∧
    (step cfgW (initState (some 500))
        (Event.destroyCall (some { code := ErrorCode.connectionDestroyed }))).listenerActive
      = false ∧
    ((runFrom cfgW
        (step cfgW (initState (some 500))
          (Event.destroyCall (some { code := ErrorCode.connectionDestroyed })))
        [ackEventW]).settled = none ∧
     (runFrom cfgW
        (step cfgW (initState (some 500))
          (Event.destroyCall (some { code := ErrorCode.connectionDestroyed })))
        [ackEventW]).sent
       = (step cfgW (initState (some 500))
          (Event.destroyCall (some { code := ErrorCode.connectionDestroyed }))).sent) := by
  obtain ⟨h1, h2, h3⟩ := destroyBeforeSettlement_silent cfgW (initState (some 500))
    (some { code := ErrorCode.connectionDestroyed }) rfl rfl
  exact ⟨h1, h2, h3 [ackEventW]⟩

/-- C2 (counterexample): with no caller-supplied `childOrigin` and an iframe
carrying neither `src` nor `srcdoc`, the establishment call itself fails
synchronously (`Except.error` embeds the throw of
`validateIframeHasSrcOrSrcDoc`, invoked at source line 72, before the
promise is constructed): no handle and no eventual result are ever created,
so the failure is not — and cannot be — reported through an eventual
result's rejection path. -/
theorem noPrincipal_throws_cex :
    connectToChild optionsNoSrcW
      = Except.error { code := ErrorCode.principalUnresolved } := by
  rfl

/-- C2 (amended): when the caller supplies no (or a falsy) expected
principal and the principal cannot be determined from the peer reference,
establishment does not proceed, and the failure is reported exactly once as
a synchronous throw from the establishment call itself — before any handle
or pending eventual result exists. -/
theorem noPrincipal_throws (o : Options)
    (hco : o.childOrigin = none ∨ o.childOrigin = some "")
    (hsrc : o.iframe.src = "") (hdoc : o.iframe.srcdoc = "") :
    connectToChild o = Except.error { code := ErrorCode.principalUnresolved } := by
  rcases hco with h | h <;>
    simp [connectToChild, h, validateIframeHasSrcOrSrcDoc, hsrc, hdoc]

/-- Closed witness for `noPrincipal_throws`: an empty-string `childOrigin`
(falsy in the source's test) and a location-free iframe. -/
theorem noPrincipal_throws_witness :
    connectToChild optionsEmptyOriginW
      = Except.error { code := ErrorCode.principalUnresolved } :=
  noPrincipal_throws optionsEmptyOriginW (Or.inr rfl) rfl rfl
